import Mathlib

/-!
Shallow embedding of `starlite_sessions/session_auth.py`: session-based
authentication middleware for the Starlite framework.  The repository's own
code is `SessionAuth` (configuration + OpenAPI metadata), `MiddlewareWrapper`
(lazy one-time assembly of a three-stage middleware stack) and
`SessionAuthMiddleware.authenticate_request` (the authentication decision
procedure).  The surrounding framework pieces (`SessionMiddleware`,
`ExceptionHandlerMiddleware`, the abstract authentication middleware's
exclusion dispatch) live outside this repository and are modelled from the
spec where a claim needs them.
-/

namespace StarliteSessions

/-- A flat model of Python runtime values, enough to express Python
truthiness.  `vobj tag truthy` stands for an arbitrary application object
(e.g. a pydantic `User`) together with the result of its own `__bool__`. -/
inductive PyValue where
  | vnone
  | vbool (b : Bool)
  | vint (n : Int)
  | vstr (s : String)
  | vobj (tag : String) (truthyFlag : Bool)
  deriving DecidableEq, Repr

/-- Python truthiness (`bool(x)`) for the modelled values. -/
def PyValue.truthy : PyValue → Bool
  | .vnone => false
  | .vbool b => b
  | .vint n => n != 0
  | .vstr s => s != ""
  | .vobj _ b => b

/-- A decoded session mapping: a Python `Dict[str, Any]`. -/
abbrev SessionDict := List (String × PyValue)

/-- The value stored under `scope["session"]`: either the distinguished
`Empty` sentinel from `starlite.types` (which instructs the session
middleware to clear the session cookie) or a decoded dictionary. -/
inductive SessionValue where
  | empty
  | data (entries : SessionDict)
  deriving DecidableEq, Repr

/-- Python truthiness of the stored session value: a dict is truthy iff it is
non-empty; the `Empty` sentinel is an ordinary (truthy) object, which is why
the source checks `connection.session is Empty` separately. -/
def SessionValue.truthy : SessionValue → Bool
  | .empty => true
  | .data entries => !entries.isEmpty

/-- The per-request connection context (ASGI scope), restricted to the keys
this middleware reads or writes: the request path, the `session` entry
(`none` when the key is absent), the `user` and `auth` entries set by the
authentication machinery, and an opaque remainder `rest` standing for every
other scope key, carried along to state frame conditions. -/
structure Scope where
  path : String
  session : Option SessionValue
  user : Option PyValue
  auth : Option SessionDict
  rest : List (String × PyValue)
  deriving DecidableEq, Repr

/-- The guard of `authenticate_request`:
`if not connection.session or connection.session is Empty`.
Modelled from the spec: an absent `session` entry counts as "no session
data" (the accessor raising on a truly absent key belongs to the hosting
framework, outside this repository; the spec folds absence into rejection). -/
def sessionGuardFails : Option SessionValue → Bool
  | none => true
  | some s => !s.truthy || s == SessionValue.empty

/-- The exception raised by downstream code, as seen by the
exception-handling middleware: either Starlite's `NotAuthorizedException`
with its detail string, or any other fault. -/
inductive Raised where
  | notAuthorized (detail : String)
  | otherFault (detail : String)
  deriving DecidableEq, Repr

/-- The result of a successful `authenticate_request`:
`AuthenticationResult(user=..., auth=...)`. -/
structure AuthenticationResult where
  user : PyValue
  auth : SessionDict
  deriving DecidableEq, Repr

/-- Outcome of one run of the authentication decision procedure: a returned
`AuthenticationResult` or a raised `NotAuthorizedException` detail. -/
inductive AuthOutcome where
  | ok (res : AuthenticationResult)
  | notAuthorized (detail : String)
  deriving DecidableEq, Repr

/-- One run of `authenticate_request`: the outcome, the connection scope
after the run (the source mutates `connection.scope["session"]` on the
rejection paths), and the list of arguments the `retrieve_user_handler`
resolver was invoked with, in order (to state how often it was called). -/
structure AuthStep where
  outcome : AuthOutcome
  scope : Scope
  resolverCalls : List SessionDict
  deriving DecidableEq, Repr

/-- Both rejection branches assign `connection.scope["session"] = Empty`. -/
def clearSession (scope : Scope) : Scope :=
  { scope with session := some SessionValue.empty }

/-- Translation of `SessionAuthMiddleware.authenticate_request` from the
source:

```python
if not connection.session or connection.session is Empty:
    connection.scope["session"] = Empty
    raise NotAuthorizedException("no session data found")
user = await self.retrieve_user_handler(connection.session)
if not user:
    connection.scope["session"] = Empty
    raise NotAuthorizedException("no user correlating to session found")
return AuthenticationResult(user=user, auth=connection.session)
```

The awaited resolver is modelled as the pure function `retrieve` (the config
wraps the caller's sync-or-async callable into an always-awaitable one). -/
def authenticate_request (retrieve : SessionDict → PyValue) (scope : Scope) :
    AuthStep :=
  if sessionGuardFails scope.session then
    { outcome := .notAuthorized "no session data found"
      scope := clearSession scope
      resolverCalls := [] }
  else
    match scope.session with
    | some (SessionValue.data entries) =>
      let user := retrieve entries
      if !user.truthy then
        { outcome := .notAuthorized "no user correlating to session found"
          scope := clearSession scope
          resolverCalls := [entries] }
      else
        { outcome := .ok { user := user, auth := entries }
          scope := scope
          resolverCalls := [entries] }
    | _ =>
      -- unreachable: the guard already fired on `none` and on the sentinel
      { outcome := .notAuthorized "no session data found"
        scope := clearSession scope
        resolverCalls := [] }

/-- Exception classes relevant to the model, the keys of the hosting
application's exception-handler registry. -/
inductive ExcKind where
  | notAuthorizedExc
  | otherExc
  deriving DecidableEq, Repr

/-- The exception class of a raised fault. -/
def Raised.kind : Raised → ExcKind
  | .notAuthorized _ => .notAuthorizedExc
  | .otherFault _ => .otherExc

/-- The detail string carried by a raised fault. -/
def Raised.detail : Raised → String
  | .notAuthorized d => d
  | .otherFault d => d

/-- An HTTP response as produced inside the stack (before the session
middleware adds the outgoing session token): status code, detail/body, and
whether diagnostic debug detail is included. -/
structure HttpResponse where
  status : Nat
  detail : String
  hasDebugInfo : Bool
  deriving DecidableEq, Repr

/-- The hosting application's exception-handler registry, modelled as a
finite map from exception class to the (data of the) response the custom
handler produces. -/
abbrev ExcRegistry := List (ExcKind × HttpResponse)

/-- Modelled from the spec: the default handler of the
exception-to-response translator, used when no custom handler is registered:
a `NotAuthorizedException` becomes a 401 response carrying its detail, any
other fault a 500; diagnostic debug detail is included only when the
application's debug flag is set. -/
def defaultErrorResponse (debug : Bool) : Raised → HttpResponse
  | .notAuthorized d => { status := 401, detail := d, hasDebugInfo := debug }
  | .otherFault d => { status := 500, detail := d, hasDebugInfo := debug }

/-- Modelled from the spec: `ExceptionHandlerMiddleware` (outside this
repository) converts a raised fault into a response using the registered
error-handler mapping, falling back to the default response when no custom
handler is registered for that exception class. -/
def translateException (registry : ExcRegistry) (debug : Bool) (e : Raised) :
    HttpResponse :=
  match registry.find? (fun p => p.1 == e.kind) with
  | some p => p.2
  | none => defaultErrorResponse debug e

/-- The outgoing session token emitted by the session middleware at response
time: a clearing token (when the stored session is the `Empty` sentinel) or
an encoding of the stored dictionary. -/
inductive OutgoingToken where
  | clearing
  | token (entries : SessionDict)
  deriving DecidableEq, Repr

/-- Modelled from the spec: the session store encodes the outgoing session
entry, emitting a clearing token for the `Empty` sentinel (and for an absent
entry, which never arises once the session middleware has run). -/
def encodeSession : Option SessionValue → OutgoingToken
  | some (SessionValue.data entries) => .token entries
  | some SessionValue.empty => .clearing
  | none => .clearing

/-- The response that leaves the whole pipeline: the translated HTTP
response together with the outgoing session token. -/
structure PipelineResponse where
  status : Nat
  detail : String
  hasDebugInfo : Bool
  sessionToken : OutgoingToken
  deriving DecidableEq, Repr

/-- What the model observes about one request besides the response: whether
`authenticate_request` was invoked at all, and the arguments the identity
resolver was invoked with, in order. -/
structure AuthTrace where
  authInvoked : Bool
  resolverCalls : List SessionDict
  deriving DecidableEq, Repr

/-- The protected handler (the original next-handler the middleware wraps):
it may read and update the scope and either return a response or raise. -/
abbrev Handler := Scope → Scope × Except Raised HttpResponse

/-- Modelled from the spec: whether the request path matches one of the
configured exclusion patterns.  The pattern matching itself belongs to the
hosting router and is taken as the opaque parameter `matcher`; `none`
(Python `None`) excludes nothing. -/
def pathExcluded (matcher : String → String → Bool)
    (exclude : Option (List String)) (path : String) : Bool :=
  match exclude with
  | none => false
  | some pats => pats.any (fun pat => matcher pat path)

/-- Modelled from the spec: the dispatch around `authenticate_request`
performed by the abstract authentication middleware (outside this
repository): skip on an excluded path, otherwise authenticate, raising the
rejection and attaching `user` and `auth` on success. -/
def runAuthMW (matcher : String → String → Bool)
    (exclude : Option (List String)) (retrieve : SessionDict → PyValue)
    (handler : Handler) (scope : Scope) :
    Scope × Except Raised HttpResponse × AuthTrace :=
  if pathExcluded matcher exclude scope.path then
    let res := handler scope
    (res.1, res.2, { authInvoked := false, resolverCalls := [] })
  else
    let step := authenticate_request retrieve scope
    match step.outcome with
    | .notAuthorized d =>
      (step.scope, .error (.notAuthorized d),
        { authInvoked := true, resolverCalls := step.resolverCalls })
    | .ok res =>
      let scope2 := { step.scope with user := some res.user, auth := some res.auth }
      let hres := handler scope2
      (hres.1, hres.2,
        { authInvoked := true, resolverCalls := step.resolverCalls })

/-- Modelled from the spec: `ExceptionHandlerMiddleware` (outside this
repository) runs the inner application and converts any raised fault into a
response via `translateException`; nothing downstream of it escapes as a
raw fault. -/
def runExceptionMW (registry : ExcRegistry) (debug : Bool)
    (inner : Scope → Scope × Except Raised HttpResponse × AuthTrace)
    (scope : Scope) : Scope × HttpResponse × AuthTrace :=
  let res := inner scope
  match res.2.1 with
  | .ok resp => (res.1, resp, res.2.2)
  | .error e => (res.1, translateException registry debug e, res.2.2)

/-- Modelled from the spec: `SessionMiddleware` (outside this repository)
decodes the incoming token into a session value, stores it in the scope,
runs the inner application, and re-encodes whatever session value the scope
holds afterwards into the outgoing token. -/
def runSessionMW (inner : Scope → Scope × HttpResponse × AuthTrace)
    (incoming : SessionValue) (scope : Scope) :
    Scope × PipelineResponse × AuthTrace :=
  let res := inner { scope with session := some incoming }
  (res.1,
    { status := res.2.1.status
      detail := res.2.1.detail
      hasDebugInfo := res.2.1.hasDebugInfo
      sessionToken := encodeSession res.1.session },
    res.2.2)

/-- The fully assembled three-stage pipeline in the order built by
`MiddlewareWrapper.__call__`: session middleware outermost, exception
handler middleware in the middle, session-auth middleware innermost wrapping
the protected handler. -/
def runPipeline (matcher : String → String → Bool)
    (exclude : Option (List String)) (retrieve : SessionDict → PyValue)
    (registry : ExcRegistry) (debug : Bool) (handler : Handler)
    (incoming : SessionValue) (scope : Scope) :
    Scope × PipelineResponse × AuthTrace :=
  runSessionMW
    (runExceptionMW registry debug
      (runAuthMW matcher exclude retrieve handler))
    incoming scope

/-- The `SessionAuth` configuration fields that drive runtime behaviour or
OpenAPI metadata: the (always-awaitable) resolver, the exclusion patterns
(`None`, normalised here to an optional list, stands for "exclude
nothing"), and the OpenAPI security scheme name (default
`"sessionCookie"`). -/
structure SessionAuth where
  retrieve_user_handler : SessionDict → PyValue
  exclude : Option (List String)
  openapi_security_scheme_name : String := "sessionCookie"

/-- The OpenAPI `SecurityScheme` data constructed by
`SessionAuth.openapi_components`. -/
structure SecurityScheme where
  type : String
  name : String
  scheme_in : String
  description : String
  deriving DecidableEq, Repr

/-- Translation of `SessionAuth.openapi_components` from the source: a
components object holding exactly one security scheme, keyed by the
configured scheme name. -/
def SessionAuth.openapi_components (config : SessionAuth) :
    List (String × SecurityScheme) :=
  [(config.openapi_security_scheme_name,
    { type := "apiKey"
      name := "Set-Cookie"
      scheme_in := "cookie"
      description := "Session cookie authentication." })]

/-- Translation of `SessionAuth.security_requirement` from the source: the
dictionary mapping the configured scheme name to an empty list. -/
def SessionAuth.security_requirement (config : SessionAuth) :
    List (String × List String) :=
  [(config.openapi_security_scheme_name, [])]

/-- The hosting `Starlite` application as read from `scope["app"]` by the
wrapper: its registered exception handlers and its debug flag. -/
structure StarliteApp where
  exception_handlers : ExcRegistry
  debug : Bool
  deriving DecidableEq, Repr

/-- The syntactic shape of an ASGI application in this model: the original
next-handler, or one of the three middleware stages wrapping an inner
application.  Used to state what stack the wrapper assembles and forwards
through. -/
inductive ASGIApp where
  | original (handle : Handler)
  | sessionMW (config : SessionAuth) (inner : ASGIApp)
  | exceptionMW (registry : ExcRegistry) (debug : Bool) (inner : ASGIApp)
  | authMW (exclude : Option (List String))
      (retrieve : SessionDict → PyValue) (inner : ASGIApp)

/-- The mutable state of a `MiddlewareWrapper` instance: the current `app`
reference and the `has_wrapped_middleware` flag, plus the immutable
config. -/
structure MiddlewareWrapper where
  app : ASGIApp
  has_wrapped_middleware : Bool
  config : SessionAuth

/-- Translation of `MiddlewareWrapper.__init__`: stores the next handler
and the config, and sets `has_wrapped_middleware = False`. -/
def MiddlewareWrapper.init (app : ASGIApp) (config : SessionAuth) :
    MiddlewareWrapper :=
  { app := app, has_wrapped_middleware := false, config := config }

/-- One invocation of `MiddlewareWrapper.__call__`, translated from the
source: on the first call it reads the hosting application's exception
handlers (`starlite_app.exception_handlers or {}`) and debug flag from the
scope, replaces `self.app` by the three-stage stack and sets the flag; every
call then forwards through the current `self.app`.  Returns the updated
wrapper state and the application the request is forwarded through. -/
def wrapperStep (w : MiddlewareWrapper) (starlite_app : StarliteApp) :
    MiddlewareWrapper × ASGIApp :=
  if !w.has_wrapped_middleware then
    let auth_middleware :=
      ASGIApp.authMW w.config.exclude w.config.retrieve_user_handler w.app
    let registry :=
      if starlite_app.exception_handlers.isEmpty then []
      else starlite_app.exception_handlers
    let exception_middleware :=
      ASGIApp.exceptionMW registry starlite_app.debug auth_middleware
    let newApp := ASGIApp.sessionMW w.config exception_middleware
    ({ w with app := newApp, has_wrapped_middleware := true }, newApp)
  else
    (w, w.app)

/-- The pipeline driven by a `SessionAuth` configuration, to state which
configuration fields runtime behaviour depends on. -/
def runPipelineCfg (matcher : String → String → Bool) (config : SessionAuth)
    (registry : ExcRegistry) (debug : Bool) (handler : Handler)
    (incoming : SessionValue) (scope : Scope) :
    Scope × PipelineResponse × AuthTrace :=
  runPipeline matcher config.exclude config.retrieve_user_handler registry
    debug handler incoming scope

/-- A concrete resolver for evaluation: accepts the session iff its `id`
entry is the string `"abc"`, mirroring the repository's test resolver. -/
def exRetrieve : SessionDict → PyValue := fun entries =>
  match entries.find? (fun p => p.1 == "id") with
  | some p => if p.2 == PyValue.vstr "abc" then PyValue.vobj "user" true
              else PyValue.vnone
  | none => PyValue.vnone

/-- A concrete protected handler for evaluation: returns a 200 response. -/
def exHandler : Handler := fun scope =>
  (scope, Except.ok { status := 200, detail := "ok", hasDebugInfo := false })

/-- A concrete configuration for evaluation. -/
def exConfig : SessionAuth :=
  { retrieve_user_handler := exRetrieve, exclude := some ["login"] }

/-- A concrete hosting application for evaluation: no custom exception
handlers, debug off. -/
def exStarliteApp : StarliteApp := { exception_handlers := [], debug := false }

/-- A concrete per-request scope for evaluation, holding a populated
session. -/
def exScope : Scope :=
  { path := "/user/1"
    session := some (SessionValue.data [("id", PyValue.vstr "abc")])
    user := none
    auth := none
    rest := [("client", PyValue.vstr "testclient")] }

/-- A matcher for evaluation: a pattern matches a path iff they are equal;
`"/login"` matches `"/login"` but not `"/user/1"`. -/
def exMatcher : String → String → Bool := fun pat path => pat == path

/-- A list is returned unchanged by the Python idiom `xs or []`. -/
theorem orEmpty_eq (l : ExcRegistry) : (if l.isEmpty then [] else l) = l := by
  cases l <;> simp

/-- C1: whenever the session mapping is absent or the `Empty` sentinel (any
state on which the guard of `authenticate_request` fires),
`authenticate_request` overwrites the scope's session entry with the
`Empty` sentinel and rejects with detail "no session data found"; through
the assembled pipeline (path not excluded, no custom handler registered for
the not-authorized condition) the response has status 401, carries that
detail, and the outgoing session token is a clearing token. -/
theorem C1_no_session_rejected_and_cleared
    (retrieve : SessionDict → PyValue) (scope : Scope)
    (matcher : String → String → Bool) (exclude : Option (List String))
    (registry : ExcRegistry) (debug : Bool) (handler : Handler)
    (incoming : SessionValue)
    (hguard : sessionGuardFails scope.session = true)
    (hinc : sessionGuardFails (some incoming) = true)
    (hreg : registry.find? (fun p => p.1 == ExcKind.notAuthorizedExc) = none)
    (hex : pathExcluded matcher exclude scope.path = false) :
    authenticate_request retrieve scope =
      { outcome := .notAuthorized "no session data found"
        scope := clearSession scope
        resolverCalls := [] } ∧
    (runPipeline matcher exclude retrieve registry debug handler incoming
        scope).2.1 =
      { status := 401, detail := "no session data found"
        hasDebugInfo := debug, sessionToken := OutgoingToken.clearing } := by
  constructor
  · simp [authenticate_request, hguard]
  · simp [runPipeline, runSessionMW, runExceptionMW, runAuthMW, hex,
      authenticate_request, hinc, clearSession, encodeSession,
      translateException, Raised.kind, hreg, defaultErrorResponse]

/-- C1 witness: a concrete connection whose decoded session is the `Empty`
sentinel is rejected with a 401 response and a clearing token. -/
theorem C1_witness :
    authenticate_request exRetrieve
        { exScope with session := some SessionValue.empty } =
      { outcome := .notAuthorized "no session data found"
        scope :=
          clearSession { exScope with session := some SessionValue.empty }
        resolverCalls := [] } ∧
    (runPipeline exMatcher (some ["/login"]) exRetrieve [] false exHandler
        SessionValue.empty
        { exScope with session := some SessionValue.empty }).2.1 =
      { status := 401, detail := "no session data found"
        hasDebugInfo := false, sessionToken := OutgoingToken.clearing } :=
  C1_no_session_rejected_and_cleared exRetrieve
    { exScope with session := some SessionValue.empty } exMatcher
    (some ["/login"]) [] false exHandler SessionValue.empty (by decide)
    (by decide) rfl (by decide)

/-- C2 counterexample: a session mapping that is present and is neither
absent nor the `Empty` sentinel — the empty dictionary — does NOT reach the
identity resolver: the truthiness guard `not connection.session` fires
first, the resolver is invoked zero times, and the request is rejected with
"no session data found". -/
theorem C2_counterexample_empty_dict_skips_resolver :
    ({ path := "/user/1", session := some (SessionValue.data []),
       user := none, auth := none, rest := [] } : Scope).session ≠ none ∧
    ({ path := "/user/1", session := some (SessionValue.data []),
       user := none, auth := none, rest := [] } : Scope).session ≠
      some SessionValue.empty ∧
    (authenticate_request (fun _ => PyValue.vobj "user" true)
      { path := "/user/1", session := some (SessionValue.data []),
        user := none, auth := none, rest := [] }).resolverCalls = [] ∧
    (authenticate_request (fun _ => PyValue.vobj "user" true)
      { path := "/user/1", session := some (SessionValue.data []),
        user := none, auth := none, rest := [] }).outcome =
      AuthOutcome.notAuthorized "no session data found" := by
  refine ⟨by decide, by decide, rfl, rfl⟩

/-- C2 (amended): for a session mapping that is present, not the `Empty`
sentinel, and truthy (a non-empty dictionary), `authenticate_request`
invokes the identity resolver exactly once, with exactly that mapping, and
the outcome is decided by the awaited resolver result; a present-but-empty
dictionary is falsy and is instead rejected before the resolver runs. -/
theorem C2_amended_resolver_invoked_once
    (retrieve : SessionDict → PyValue) (scope : Scope) (entries : SessionDict)
    (hs : scope.session = some (SessionValue.data entries))
    (hne : entries ≠ []) :
    (authenticate_request retrieve scope).resolverCalls = [entries] ∧
    (authenticate_request retrieve scope).outcome =
      (if (retrieve entries).truthy then
        AuthOutcome.ok { user := retrieve entries, auth := entries }
      else
        AuthOutcome.notAuthorized "no user correlating to session found") := by
  have hguard : sessionGuardFails (some (SessionValue.data entries)) = false := by
    cases entries with
    | nil => exact absurd rfl hne
    | cons a t => simp [sessionGuardFails, SessionValue.truthy]
  constructor <;> cases ht : (retrieve entries).truthy <;>
    simp [authenticate_request, hguard, hs, ht]

/-- C2 witness: on a concrete populated session the resolver is called once
with the session dictionary and its user is returned. -/
theorem C2_witness :
    (authenticate_request exRetrieve exScope).resolverCalls =
      [[("id", PyValue.vstr "abc")]] ∧
    (authenticate_request exRetrieve exScope).outcome =
      AuthOutcome.ok { user := PyValue.vobj "user" true
                       auth := [("id", PyValue.vstr "abc")] } := by
  have h := C2_amended_resolver_invoked_once exRetrieve exScope
    [("id", PyValue.vstr "abc")] rfl (by decide)
  exact ⟨h.1, by rw [h.2]; decide⟩

/-- C3: whenever the identity resolver returns a falsy result — any falsy
Python value, not only `None` — on a truthy session mapping,
`authenticate_request` overwrites the session entry with the `Empty`
sentinel and rejects with detail "no user correlating to session found";
the resulting state is one and the same record for every falsy resolver
result, so an explicit falsy identity is treated identically to absence. -/
theorem C3_falsy_user_rejected_and_cleared
    (retrieve : SessionDict → PyValue) (scope : Scope) (entries : SessionDict)
    (hs : scope.session = some (SessionValue.data entries))
    (hne : entries ≠ [])
    (hfalsy : (retrieve entries).truthy = false) :
    authenticate_request retrieve scope =
      { outcome := .notAuthorized "no user correlating to session found"
        scope := clearSession scope
        resolverCalls := [entries] } := by
  have hguard : sessionGuardFails (some (SessionValue.data entries)) = false := by
    cases entries with
    | nil => exact absurd rfl hne
    | cons a t => simp [sessionGuardFails, SessionValue.truthy]
  simp [authenticate_request, hguard, hs, hfalsy]

/-- C3 witness: a resolver returning the explicit falsy value `False` (not
`None`) leads to the same rejection and clearing. -/
theorem C3_witness :
    authenticate_request (fun _ => PyValue.vbool false) exScope =
      { outcome := .notAuthorized "no user correlating to session found"
        scope := clearSession exScope
        resolverCalls := [[("id", PyValue.vstr "abc")]] } :=
  C3_falsy_user_rejected_and_cleared (fun _ => PyValue.vbool false) exScope
    [("id", PyValue.vstr "abc")] rfl (by decide) rfl

/-- C4: whenever the identity resolver returns a truthy identity on a
truthy session mapping, `authenticate_request` returns `Authenticated` with
`user` the resolver result and `auth` that very session mapping, and the
scope — its session entry included — is left completely unchanged: no
clearing occurs. -/
theorem C4_truthy_user_authenticated
    (retrieve : SessionDict → PyValue) (scope : Scope) (entries : SessionDict)
    (hs : scope.session = some (SessionValue.data entries))
    (hne : entries ≠ [])
    (htruthy : (retrieve entries).truthy = true) :
    authenticate_request retrieve scope =
      { outcome := .ok { user := retrieve entries, auth := entries }
        scope := scope
        resolverCalls := [entries] } := by
  have hguard : sessionGuardFails (some (SessionValue.data entries)) = false := by
    cases entries with
    | nil => exact absurd rfl hne
    | cons a t => simp [sessionGuardFails, SessionValue.truthy]
  simp [authenticate_request, hguard, hs, htruthy]

/-- C4 witness: on a concrete populated session whose resolver finds a
user, the result is `Authenticated` with that user and the untouched
scope. -/
theorem C4_witness :
    authenticate_request exRetrieve exScope =
      { outcome := .ok { user := PyValue.vobj "user" true
                         auth := [("id", PyValue.vstr "abc")] }
        scope := exScope
        resolverCalls := [[("id", PyValue.vstr "abc")]] } :=
  C4_truthy_user_authenticated exRetrieve exScope
    [("id", PyValue.vstr "abc")] rfl (by decide) rfl

/-- C5: on a first invocation (the `has_wrapped_middleware` flag still
false) the wrapper reads the hosting application's exception handlers and
debug flag, replaces its `app` by the three-stage stack — session middleware
outermost, exception-handler middleware in the middle, session-auth
middleware innermost wrapping the original next handler — forwards through
that stack, and records that assembly is complete. -/
theorem C5_first_invocation_assembles_stack
    (w : MiddlewareWrapper) (sapp : StarliteApp)
    (h : w.has_wrapped_middleware = false) :
    wrapperStep w sapp =
      ({ w with
          app := ASGIApp.sessionMW w.config
            (ASGIApp.exceptionMW sapp.exception_handlers sapp.debug
              (ASGIApp.authMW w.config.exclude w.config.retrieve_user_handler
                w.app))
          has_wrapped_middleware := true },
        ASGIApp.sessionMW w.config
          (ASGIApp.exceptionMW sapp.exception_handlers sapp.debug
            (ASGIApp.authMW w.config.exclude w.config.retrieve_user_handler
              w.app))) := by
  simp [wrapperStep, h, orEmpty_eq]

/-- C5 witness: a concrete freshly initialised wrapper assembles the
concrete three-stage stack on its first invocation. -/
theorem C5_witness :
    wrapperStep (MiddlewareWrapper.init (ASGIApp.original exHandler) exConfig)
      exStarliteApp =
      ({ MiddlewareWrapper.init (ASGIApp.original exHandler) exConfig with
          app := ASGIApp.sessionMW exConfig
            (ASGIApp.exceptionMW exStarliteApp.exception_handlers
              exStarliteApp.debug
              (ASGIApp.authMW exConfig.exclude exConfig.retrieve_user_handler
                (ASGIApp.original exHandler)))
          has_wrapped_middleware := true },
        ASGIApp.sessionMW exConfig
          (ASGIApp.exceptionMW exStarliteApp.exception_handlers
            exStarliteApp.debug
            (ASGIApp.authMW exConfig.exclude exConfig.retrieve_user_handler
              (ASGIApp.original exHandler)))) :=
  C5_first_invocation_assembles_stack
    (MiddlewareWrapper.init (ASGIApp.original exHandler) exConfig)
    exStarliteApp rfl

/-- C6: assembly happens at most once per wrapper instance and is guarded by
the boolean flag: after the first invocation the flag is set, and any later
invocation (whatever hosting application the scope then carries) leaves the
wrapper state untouched and forwards through exactly the stack assembled the
first time — no re-assembly, no duplicate stages, identical routing. -/
theorem C6_assembly_idempotent
    (w : MiddlewareWrapper) (sapp sapp2 : StarliteApp)
    (h : w.has_wrapped_middleware = false) :
    (wrapperStep w sapp).1.has_wrapped_middleware = true ∧
    (wrapperStep (wrapperStep w sapp).1 sapp2).1 = (wrapperStep w sapp).1 ∧
    (wrapperStep (wrapperStep w sapp).1 sapp2).2 = (wrapperStep w sapp).2 ∧
    (wrapperStep (wrapperStep w sapp).1 sapp2).2 =
      (wrapperStep w sapp).1.app := by
  simp [wrapperStep, h]

/-- C6 witness: the concrete wrapper, invoked twice, keeps its state and
forwards the second request through the stack assembled on the first. -/
theorem C6_witness :
    (wrapperStep (MiddlewareWrapper.init (ASGIApp.original exHandler) exConfig)
        exStarliteApp).1.has_wrapped_middleware = true ∧
    (wrapperStep
        (wrapperStep
          (MiddlewareWrapper.init (ASGIApp.original exHandler) exConfig)
          exStarliteApp).1 exStarliteApp).1 =
      (wrapperStep (MiddlewareWrapper.init (ASGIApp.original exHandler)
        exConfig) exStarliteApp).1 ∧
    (wrapperStep
        (wrapperStep
          (MiddlewareWrapper.init (ASGIApp.original exHandler) exConfig)
          exStarliteApp).1 exStarliteApp).2 =
      (wrapperStep (MiddlewareWrapper.init (ASGIApp.original exHandler)
        exConfig) exStarliteApp).2 ∧
    (wrapperStep
        (wrapperStep
          (MiddlewareWrapper.init (ASGIApp.original exHandler) exConfig)
          exStarliteApp).1 exStarliteApp).2 =
      (wrapperStep (MiddlewareWrapper.init (ASGIApp.original exHandler)
        exConfig) exStarliteApp).1.app :=
  C6_assembly_idempotent
    (MiddlewareWrapper.init (ASGIApp.original exHandler) exConfig)
    exStarliteApp exStarliteApp rfl

/-- C7: a rejection raised by the decision procedure never leaves the
exception-handler middleware as a raw fault: whenever `authenticate_request`
rejects (path not excluded) and no custom handler is registered for the
not-authorized condition, the pipeline returns a translated response with
status 401, the rejection's detail, and debug detail included exactly when
the hosting application's debug flag is set. -/
theorem C7_rejection_translated_to_response
    (matcher : String → String → Bool) (exclude : Option (List String))
    (retrieve : SessionDict → PyValue) (registry : ExcRegistry)
    (debug : Bool) (handler : Handler) (incoming : SessionValue)
    (scope : Scope) (d : String)
    (hex : pathExcluded matcher exclude scope.path = false)
    (hreg : registry.find? (fun p => p.1 == ExcKind.notAuthorizedExc) = none)
    (hrej : (authenticate_request retrieve
        { scope with session := some incoming }).outcome =
      AuthOutcome.notAuthorized d) :
    (runPipeline matcher exclude retrieve registry debug handler incoming
        scope).2.1.status = 401 ∧
    (runPipeline matcher exclude retrieve registry debug handler incoming
        scope).2.1.detail = d ∧
    (runPipeline matcher exclude retrieve registry debug handler incoming
        scope).2.1.hasDebugInfo = debug := by
  simp only [runPipeline, runSessionMW, runExceptionMW, runAuthMW]
  rw [show ({ scope with session := some incoming } : Scope).path =
    scope.path from rfl, hex]
  simp only [Bool.false_eq_true, if_false, hrej]
  simp [translateException, Raised.kind, hreg, defaultErrorResponse]

/-- C7 witness: a concrete rejected request (empty session, debug on, no
custom handlers) yields a 401 response carrying the rejection detail and
debug detail. -/
theorem C7_witness :
    (runPipeline exMatcher (some ["/login"]) exRetrieve [] true exHandler
        SessionValue.empty exScope).2.1.status = 401 ∧
    (runPipeline exMatcher (some ["/login"]) exRetrieve [] true exHandler
        SessionValue.empty exScope).2.1.detail = "no session data found" ∧
    (runPipeline exMatcher (some ["/login"]) exRetrieve [] true exHandler
        SessionValue.empty exScope).2.1.hasDebugInfo = true :=
  C7_rejection_translated_to_response exMatcher (some ["/login"]) exRetrieve
    [] true exHandler SessionValue.empty exScope "no session data found"
    (by decide) rfl (by decide)

/-- C8: on a request whose path matches a configured exclusion pattern the
authentication middleware runs the protected handler directly on the
untouched scope — `authenticate_request` is never invoked, the resolver is
never invoked, and no `user` or `auth` entry is attached — and through the
full pipeline the trace likewise records no authentication. -/
theorem C8_excluded_path_skips_auth
    (matcher : String → String → Bool) (exclude : Option (List String))
    (retrieve : SessionDict → PyValue) (registry : ExcRegistry)
    (debug : Bool) (handler : Handler) (incoming : SessionValue)
    (scope : Scope)
    (hex : pathExcluded matcher exclude scope.path = true) :
    runAuthMW matcher exclude retrieve handler scope =
      ((handler scope).1, (handler scope).2,
        { authInvoked := false, resolverCalls := [] }) ∧
    (runPipeline matcher exclude retrieve registry debug handler incoming
        scope).2.2 = { authInvoked := false, resolverCalls := [] } := by
  constructor
  · simp [runAuthMW, hex]
  · simp only [runPipeline, runSessionMW, runExceptionMW, runAuthMW]
    rw [show ({ scope with session := some incoming } : Scope).path =
      scope.path from rfl, hex]
    cases hh : (handler { scope with session := some incoming }).2 <;>
      simp [hh]

/-- C8 witness: a concrete request to the excluded path runs the handler
directly and the trace records that authentication never ran. -/
theorem C8_witness :
    runAuthMW exMatcher (some ["/login"]) exRetrieve exHandler
        { exScope with path := "/login" } =
      ((exHandler { exScope with path := "/login" }).1,
        (exHandler { exScope with path := "/login" }).2,
        { authInvoked := false, resolverCalls := [] }) ∧
    (runPipeline exMatcher (some ["/login"]) exRetrieve [] false exHandler
        SessionValue.empty { exScope with path := "/login" }).2.2 =
      { authInvoked := false, resolverCalls := [] } :=
  C8_excluded_path_skips_auth exMatcher (some ["/login"]) exRetrieve []
    false exHandler SessionValue.empty { exScope with path := "/login" }
    (by decide)

/-- C9: for every configuration, `openapi_components` is exactly one
security scheme keyed by the configured scheme name — `apiKey`-typed,
located in a cookie — `security_requirement` maps that same name to an empty
list, the name defaults to "sessionCookie", and runtime request handling is
independent of the scheme name: changing it changes nothing about the
pipeline's behaviour. -/
theorem C9_openapi_metadata
    (config : SessionAuth) (name2 : String)
    (matcher : String → String → Bool) (registry : ExcRegistry)
    (debug : Bool) (handler : Handler) (incoming : SessionValue)
    (scope : Scope) (r : SessionDict → PyValue)
    (e : Option (List String)) :
    config.openapi_components =
      [(config.openapi_security_scheme_name,
        { type := "apiKey", name := "Set-Cookie", scheme_in := "cookie"
          description := "Session cookie authentication." })] ∧
    config.security_requirement =
      [(config.openapi_security_scheme_name, [])] ∧
    ({ retrieve_user_handler := r, exclude := e } :
        SessionAuth).openapi_security_scheme_name = "sessionCookie" ∧
    runPipelineCfg matcher
        { config with openapi_security_scheme_name := name2 } registry debug
        handler incoming scope =
      runPipelineCfg matcher config registry debug handler incoming scope :=
  ⟨rfl, rfl, rfl, rfl⟩

/-- C10: `authenticate_request` leaves every part of the connection context
other than the session entry untouched — the scope after the run is either
unchanged or the input scope with just its session entry replaced by the
`Empty` sentinel; the replacement happens exactly on the rejection
outcomes, the authenticated outcome leaves the whole scope unchanged, and
the returned `auth` is the very mapping that was read from the context and
was the unique argument the resolver was invoked with. -/
theorem C10_mutates_session_only
    (retrieve : SessionDict → PyValue) (scope : Scope) :
    ((authenticate_request retrieve scope).scope = scope ∨
      (authenticate_request retrieve scope).scope = clearSession scope) ∧
    (authenticate_request retrieve scope).scope.path = scope.path ∧
    (authenticate_request retrieve scope).scope.user = scope.user ∧
    (authenticate_request retrieve scope).scope.auth = scope.auth ∧
    (authenticate_request retrieve scope).scope.rest = scope.rest ∧
    (∀ d, (authenticate_request retrieve scope).outcome =
        AuthOutcome.notAuthorized d →
      (authenticate_request retrieve scope).scope = clearSession scope) ∧
    (∀ res, (authenticate_request retrieve scope).outcome =
        AuthOutcome.ok res →
      (authenticate_request retrieve scope).scope = scope ∧
      scope.session = some (SessionValue.data res.auth) ∧
      (authenticate_request retrieve scope).resolverCalls = [res.auth] ∧
      res.user = retrieve res.auth) := by
  cases hg : sessionGuardFails scope.session with
  | true => simp [authenticate_request, hg, clearSession]
  | false =>
    cases hs : scope.session with
    | none => rw [hs] at hg; simp [sessionGuardFails] at hg
    | some sv =>
      cases sv with
      | empty =>
        rw [hs] at hg
        simp [sessionGuardFails, SessionValue.truthy] at hg
      | data entries =>
        rw [hs] at hg
        cases ht : (retrieve entries).truthy with
        | false => simp [authenticate_request, hg, hs, ht, clearSession]
        | true => simp [authenticate_request, hg, hs, ht, clearSession]

/-- C10 witness: on a concrete authenticated run the scope is unchanged and
the returned `auth` is the mapping that was read and resolved. -/
theorem C10_witness :
    (authenticate_request exRetrieve exScope).scope = exScope ∧
    exScope.session =
      some (SessionValue.data [("id", PyValue.vstr "abc")]) ∧
    (authenticate_request exRetrieve exScope).resolverCalls =
      [[("id", PyValue.vstr "abc")]] ∧
    PyValue.vobj "user" true = exRetrieve [("id", PyValue.vstr "abc")] := by
  have h := (C10_mutates_session_only exRetrieve exScope).2.2.2.2.2.2
    { user := PyValue.vobj "user" true
      auth := [("id", PyValue.vstr "abc")] } (by decide)
  exact ⟨h.1, h.2.1, h.2.2.1, h.2.2.2⟩

end StarliteSessions
